import Mathlib

/-!
Shallow embedding of `norpix.py` (Norpix .seq file reader) and proofs about it.

Conventions:
* A binary file is a `List Nat` of byte values (each `< 256`; the embedding
  never depends on that bound).
* Python 2 integer `/` is floor division: embedded as `Int.fdiv`.
* Python `int()` applied to a float truncates toward zero: embedded as
  `Int.tdiv` on the exact rational value of the float.
* Exceptions become `Except` values.
-/

/-- Little-endian decoding of a byte list: `[b0, b1, ...] ↦ b0 + 256*b1 + ...`.
Models `struct.unpack` of unsigned little-endian integers (`'<L'`, `'<H'`). -/
def leDecodeNat (bs : List Nat) : Nat :=
  bs.foldr (fun b acc => b + 256 * acc) 0

/-- `bytesAt file pos len` is the byte slice `file[pos : pos+len]`,
what `file.read(len)` returns after `file.seek(pos)` (short at EOF). -/
def bytesAt (file : List Nat) (pos len : Nat) : List Nat :=
  (file.drop pos).take len

/-! ### BinParser fields (`norpix.py` lines 74-128, 184-321)

For the parsing claims only a field's `name`, its `depends` list and its
raw-value `count()` matter; that triple is what `BinField` records. -/

/-- The data of a `BinDatum` instance that `BinParser.readTo` consults:
`name` and `depends` (norpix.py lines 186-188), and the number `count()`
of raw unpacked values its format callback `fcb` consumes (line 111). -/
structure BinField where
  name : String
  depends : List String
  count : Nat
deriving DecidableEq

/-- The inner loop `for d in f.depends: if not self.data.has_key(d): break`
of `readTo` (norpix.py lines 97-98).  Its `break` leaves only this inner
loop and its body changes no state, so the scan computes nothing observable;
the traversal is embedded literally. -/
def dependsScan (ctx : List String) : List String → Unit
  | [] => ()
  | d :: rest => if ctx.contains d then dependsScan ctx rest else ()

/-- The segment-collection loop of `BinParser.readTo` (norpix.py lines 91-100):
scan the remaining format entries; for each, run the dependency scan
(which, as written in the source, cannot stop the outer loop), append the
entry to the segment unconditionally, and stop after appending the entry
named `place`.  `ctx` is the key set of `self.data`. -/
def readToSegment (place : Option String) (ctx : List String) :
    List BinField → List BinField
  | [] => []
  | f :: rest =>
    let _ := dependsScan ctx f.depends
    f :: (if some f.name = place then [] else readToSegment place ctx rest)

/-- Faults raised by the dispatch loop of `readTo` (norpix.py lines 110-117);
both are `IndexError` in the source (the spec's LayoutMismatch). -/
inductive ParseFault where
  | notEnoughData
  | unclaimedData
deriving DecidableEq

/-- Sum of the declared `count()` values of a segment. -/
def countSum (fs : List BinField) : Nat :=
  (fs.map BinField.count).sum

/-- The slices of raw values handed to each field's `fcb` in order:
field `j` receives `result[0:count_j]` of what is left (norpix.py line 114). -/
def sliceBy : List BinField → List Int → List (List Int)
  | [], _ => []
  | f :: rest, raws => raws.take f.count :: sliceBy rest (raws.drop f.count)

/-- The dispatch loop of `BinParser.readTo` (norpix.py lines 110-117):
for each field in the segment, if fewer raw values remain than its `count()`
raise `IndexError` (`notEnoughData`); otherwise hand it the first `count()`
values and drop them; after the loop, any remaining values raise
`IndexError` (`unclaimedData`).  On success, returns the slice given
to each field. -/
def dispatch : List BinField → List Int → Except ParseFault (List (List Int))
  | [], raws => if raws.isEmpty then .ok [] else .error .unclaimedData
  | f :: rest, raws =>
    if raws.length < f.count then .error .notEnoughData
    else
      match dispatch rest (raws.drop f.count) with
      | .ok out => .ok (raws.take f.count :: out)
      | .error e => .error e

/-- Python's `val.find(t)` on a byte string: index of the first occurrence,
`none` for Python's `-1` (norpix.py line 265). -/
def pyFind (t : Nat) : List Nat → Option Nat
  | [] => none
  | b :: rest => if b = t then some 0 else (pyFind t rest).map (· + 1)

/-- `BinString.fcb` (norpix.py lines 264-267): find the first null byte,
treat "not found" as the full length, and keep `val[0:i]`. -/
def binStringDecode (val : List Nat) : List Nat :=
  match pyFind 0 val with
  | some i => val.take i
  | none => val

/-! ### SeqHeader checks and SeqFile construction -/

/-- The decoded header entries that `SeqHeader`'s checks and `SeqFile.__init__`
consume (norpix.py lines 136-151): `'L'`-decoded fields are `Nat`,
`'l'`-decoded fields (`Version`, `HeaderSize`) are `Int`. -/
structure SeqHeaderData where
  Version : Int
  HeaderSize : Int
  Width : Nat
  Height : Nat
  BitDepth : Nat
  BitDepthReal : Nat
  ImageSizeBytes : Nat
  ImageFormat : Nat
  TrueImageSize : Nat
deriving DecidableEq

/-- Faults that abort construction of a `SeqFile`, in source order:
the `assert d['HeaderSize'] == 1024` (norpix.py line 155), the
`IOError` for `ImageFormat != 100` (lines 156-157, the spec's
UnsupportedFormat), the `ZeroDivisionError` of line 52 when
`TrueImageSize == 0`, and the `TypeError` of `np.dtype('uint%i' % bpp)`
on line 54 for an unsupported `BitDepth`. -/
inductive ConstructFault where
  | assertHeaderSize
  | unsupportedFormat
  | divByZero
  | badPixelDtype
deriving DecidableEq

/-- The validation tail of `SeqHeader.__init__` (norpix.py lines 154-157):
first the `HeaderSize == 1024` assertion, then the `ImageFormat == 100`
check.  (`checkoffset` on line 154 only prints a warning.) -/
def seqHeaderChecks (hd : SeqHeaderData) : Except ConstructFault Unit :=
  if hd.HeaderSize ≠ 1024 then .error .assertHeaderSize
  else if hd.ImageFormat ≠ 100 then .error .unsupportedFormat
  else .ok ()

/-- A constructed `SeqFile`: the decoded header plus the file's bytes. -/
structure SeqFile where
  header : SeqHeaderData
  file : List Nat
deriving DecidableEq

/-- `SeqFile.__init__` (norpix.py lines 31-56) as construction of a value:
`SeqHeader` runs its checks first; then line 52 divides by `TrueImageSize`
(`ZeroDivisionError` when 0) and line 54 builds `np.dtype('uint%i' % bpp)`,
which only exists for widths 8, 16, 32, 64. -/
def mkSeqFile (hd : SeqHeaderData) (file : List Nat) :
    Except ConstructFault SeqFile :=
  match seqHeaderChecks hd with
  | .error e => .error e
  | .ok _ =>
    if hd.TrueImageSize = 0 then .error .divByZero
    else if ¬(hd.BitDepth = 8 ∨ hd.BitDepth = 16 ∨ hd.BitDepth = 32 ∨
        hd.BitDepth = 64) then .error .badPixelDtype
    else .ok ⟨hd, file⟩

/-! Derived attributes of `SeqFile.__init__` (norpix.py lines 37-56). -/

def SeqFile.height (s : SeqFile) : Nat := s.header.Height

def SeqFile.width (s : SeqFile) : Nat := s.header.Width

def SeqFile.realbpp (s : SeqFile) : Nat := s.header.BitDepthReal

/-- `self.fullscale = 2**self.realbpp - 1` (norpix.py line 40). -/
def SeqFile.fullscale (s : SeqFile) : Nat := 2 ^ s.realbpp - 1

def SeqFile.bpp (s : SeqFile) : Nat := s.header.BitDepth

/-- `np.dtype('uint%i' % self.bpp).itemsize` (norpix.py line 54). -/
def SeqFile.itemsize (s : SeqFile) : Nat := s.bpp / 8

/-- `self._pixlen = h['ImageSizeBytes']` (norpix.py line 55); passed to
`np.fromfile` as its item count on line 66. -/
def SeqFile.pixlen (s : SeqFile) : Nat := s.header.ImageSizeBytes

/-- `self._imageOffset` (norpix.py lines 46-49): 8192 for Version 5,
else 1024. -/
def SeqFile.imageOffset (s : SeqFile) : Int :=
  if s.header.Version = 5 then 8192 else 1024

/-- `self._imageBlockSize = h['TrueImageSize']` (norpix.py line 50). -/
def SeqFile.imageBlockSize (s : SeqFile) : Int := (s.header.TrueImageSize : Int)

/-- `self.filesize = os.stat(filename).st_size` (norpix.py line 51). -/
def SeqFile.filesize (s : SeqFile) : Nat := s.file.length

/-- `self.imageCount = (self.filesize - h['HeaderSize']) / h['TrueImageSize']`
(norpix.py line 52); Python 2 integer `/` is floor division. -/
def SeqFile.imageCount (s : SeqFile) : Int :=
  Int.fdiv ((s.filesize : Int) - s.header.HeaderSize) (s.header.TrueImageSize : Int)

/-! ### Frame access: `SeqFile.__getitem__` (norpix.py lines 57-68) -/

/-- A frame as returned by `__getitem__`: the pixel buffer reshaped to
`Height × Width`, and the timestamp in fractional seconds. -/
abbrev Frame := List (List Nat) × ℚ

/-- Faults of a frame access.  `invalidIndex` is the `ValueError` of
norpix.py line 62, `outOfRange` the `ValueError` of line 64, `readError`
any error of the seek/read/reshape/unpack on lines 65-67 (negative seek,
failed reshape, short `read(6)`). -/
inductive GetFault where
  | invalidIndex
  | outOfRange
  | readError
deriving DecidableEq

/-- Lines 65-68 of norpix.py, given the (already computed) seek target
`pos` and the file cursor `c` before the call:
`seek(pos)` fails on a negative target (`IOError`); `np.fromfile` then
reads up to `self._pixlen` *items* of `self._dtype` (itemsize bytes each),
as many complete items as remain before EOF; `.reshape((height, width))`
fails unless exactly `height*width` items were read; `self._file.read(6)`
then yields the next 6 bytes, which `struct.unpack('<LH', ...)` requires
in full, giving seconds (4-byte LE unsigned) and milliseconds (2-byte LE
unsigned).  Returns the result together with the cursor after the call. -/
def readFrameAt (s : SeqFile) (pos : Int) (c : Int) :
    Except GetFault Frame × Int :=
  if pos < 0 then (.error .readError, c)
  else
    let p := pos.toNat
    let avail := s.filesize - p
    let nelems := min s.pixlen (avail / s.itemsize)
    let cur := p + min (s.pixlen * s.itemsize) avail
    if nelems ≠ s.height * s.width then (.error .readError, (cur : Int))
    else if s.filesize < cur + 6 then (.error .readError, (s.filesize : Int))
    else
      let elems := (List.range nelems).map
        (fun j => leDecodeNat (bytesAt s.file (p + j * s.itemsize) s.itemsize))
      let img := (List.range s.height).map
        (fun r => (List.range s.width).map
          (fun col => elems.getD (r * s.width + col) 0))
      let tsecs := leDecodeNat (bytesAt s.file cur 4)
      let tms := leDecodeNat (bytesAt s.file (cur + 4) 2)
      (.ok (img, (tsecs : ℚ) + (tms : ℚ) / 1000), ((cur + 6 : Nat) : Int))

/-- `__getitem__` for an integer frame number `i` (for which the
`int(i) != i` test on line 61 is trivially false), with the file cursor
threaded explicitly: the bound check `i >= self.imageCount` of line 63
(no lower bound is checked), then the seek to
`self._imageOffset + self._imageBlockSize * i` and the reads. -/
def seqGetSt (s : SeqFile) (i : Int) (c : Int) :
    Except GetFault Frame × Int :=
  if s.imageCount ≤ i then (.error .outOfRange, c)
  else readFrameAt s (s.imageOffset + s.imageBlockSize * i) c

/-- The value `__getitem__` returns for integer `i` (cursor-free view). -/
def seqGet (s : SeqFile) (i : Int) : Except GetFault Frame :=
  (seqGetSt s i 0).1

/-- Python 2 `int()` on the exact rational value of a float: truncation
toward zero. -/
def ratTrunc (q : ℚ) : Int := q.num.tdiv (q.den : Int)

/-- `__getitem__` for a float frame number, whose exact value is the
rational `q` (every float value is an exact rational): line 61 rejects it
when `int(q) != q`; line 63 compares `q >= self.imageCount`; lines 65-67
then use `q` directly in the offset arithmetic, the seek truncating the
(integral) float target to an integer. -/
def seqGetQ (s : SeqFile) (q : ℚ) : Except GetFault Frame :=
  if (ratTrunc q : ℚ) ≠ q then .error .invalidIndex
  else if (s.imageCount : ℚ) ≤ q then .error .outOfRange
  else (readFrameAt s (ratTrunc ((s.imageOffset : ℚ) + (s.imageBlockSize : ℚ) * q)) 0).1

/-! ### SeqImageFloat (norpix.py lines 158-179) -/

/-- A normalized frame: rational pixel values plus the timestamp. -/
abbrev FrameF := List (List ℚ) × ℚ

/-- `SeqImageFloat.filter` (norpix.py lines 178-179): divide every pixel
by `float(self.fullscale)` elementwise, pass the timestamp through. -/
def seqImageFloatFilter (fullscale : Nat) (fr : Frame) : FrameF :=
  (fr.1.map (fun row => row.map (fun v => (v : ℚ) / (fullscale : ℚ))), fr.2)

/-- The `fullscale` of the built-in view: `SeqFile.__init__` constructs
`SeqImageFloat(self)` (norpix.py line 43) without a `fullscale` argument,
so the default `fullscale=255` of line 175 applies. -/
def seqImageFloatDefaultScale : Nat := 255

/-- `self.imfloat[i]`: `FilterILI.__getitem__` (norpix.py lines 166-167)
applies `filter` to `self.source[i]`; faults of the source propagate. -/
def SeqFile.imfloatItem (s : SeqFile) (i : Int) : Except GetFault FrameF :=
  (seqGet s i).map (seqImageFloatFilter seqImageFloatDefaultScale)

deriving instance DecidableEq for Except

set_option maxRecDepth 8000

/-! ### Concrete files used as inputs to the theorems below -/

/-- An 8-bit header: 2×1 pixels, one byte per pixel, `TrueImageSize` 8
(2 pixel bytes + 6 timestamp bytes), format code 100, pre-version-5. -/
def hdr8 : SeqHeaderData :=
  { Version := 0, HeaderSize := 1024, Width := 2, Height := 1, BitDepth := 8,
    BitDepthReal := 8, ImageSizeBytes := 2, ImageFormat := 100, TrueImageSize := 8 }

/-- A file for `hdr8`: a 1024-byte header region (all zero), then two
frame records: pixels `[1,2]` with timestamp 10 s, pixels `[3,4]` with
timestamp 20 s. -/
def file8 : List Nat :=
  List.replicate 1024 0 ++ [1, 2, 10, 0, 0, 0, 0, 0] ++ [3, 4, 20, 0, 0, 0, 0, 0]

def sf8 : SeqFile := ⟨hdr8, file8⟩

/-- A 16-bit header: 1×2 pixels, `ImageSizeBytes = 4` (2 pixels × 2 bytes),
`TrueImageSize` 10 (4 pixel bytes + 6 timestamp bytes). -/
def hdr16 : SeqHeaderData :=
  { Version := 0, HeaderSize := 1024, Width := 1, Height := 2, BitDepth := 16,
    BitDepthReal := 16, ImageSizeBytes := 4, ImageFormat := 100, TrueImageSize := 10 }

/-- A file for `hdr16`: 1024-byte header region, then one frame record:
little-endian 16-bit pixels 1 and 2, timestamp 7 s + 5 ms. -/
def file16 : List Nat :=
  List.replicate 1024 0 ++ [1, 0, 2, 0, 7, 0, 0, 0, 5, 0]

def sf16 : SeqFile := ⟨hdr16, file16⟩

/-- A header with `BitDepthReal = 12` (stored in 8-bit samples): 1×1 pixel,
`TrueImageSize` 7 (1 pixel byte + 6 timestamp bytes). -/
def hdr12 : SeqHeaderData :=
  { Version := 0, HeaderSize := 1024, Width := 1, Height := 1, BitDepth := 8,
    BitDepthReal := 12, ImageSizeBytes := 1, ImageFormat := 100, TrueImageSize := 7 }

/-- A file for `hdr12`: 1024-byte header region, then one frame record:
pixel value 255, timestamp 7 s + 5 ms. -/
def file12 : List Nat :=
  List.replicate 1024 0 ++ [255, 7, 0, 0, 0, 5, 0]

def sf12 : SeqFile := ⟨hdr12, file12⟩

/-- A decoded header in which both `HeaderSize` (999) and `ImageFormat` (0)
are invalid. -/
def hdrHS999 : SeqHeaderData :=
  { Version := 0, HeaderSize := 999, Width := 1, Height := 1, BitDepth := 8,
    BitDepthReal := 8, ImageSizeBytes := 1, ImageFormat := 0, TrueImageSize := 7 }

/-- A decoded header with valid `HeaderSize` but `ImageFormat = 0`. -/
def hdrFmt0 : SeqHeaderData :=
  { Version := 0, HeaderSize := 1024, Width := 1, Height := 1, BitDepth := 8,
    BitDepthReal := 8, ImageSizeBytes := 1, ImageFormat := 0, TrueImageSize := 7 }

/-! ### Claim theorems -/

/-- C1: the claim says `get(i)` reads `ImageSizeBytes` *bytes* of pixel
data, reinterpreted at `BitDepth` bits per element, reshaped to
`Height × Width`, then 6 timestamp bytes.  The source instead passes the
byte count `ImageSizeBytes` to `np.fromfile` as its *item* count
(norpix.py line 66), so for `BitDepth = 16` it reads `2 × ImageSizeBytes`
bytes and the reshape to `Height × Width` fails.  On the concrete 16-bit
one-frame file `sf16`, `get(0)` faults instead of returning the frame
`([[1],[2]], 7.005)` promised by the claim. -/
theorem getitem_fromfile_count_bug :
    seqGet sf16 0 = .error .readError ∧
    (Except.error .readError : Except GetFault Frame) ≠
      .ok ([[1], [2]], 7 + 5 / 1000) := by
  refine ⟨by decide, ?_⟩
  intro h
  exact Except.noConfusion h

/-- C2: the claim says every frame number outside `[0, frameCount)`,
negative ones included, faults with OutOfRange.  The source checks only
`i >= self.imageCount` (norpix.py line 63) and never a lower bound, so on
the two-frame file `sf8`, `get(-1)` seeks to `1024 - 8 = 1016`, reads
bytes of the header region, and returns a (garbage) frame instead of
faulting.  `get(2)` does fault with OutOfRange, and `get(0)`, `get(1)`
return the real frames. -/
theorem getitem_negative_index_bug :
    seqGet sf8 (-1) = .ok ([[0, 0]], 0) ∧
    seqGet sf8 2 = .error .outOfRange ∧
    seqGet sf8 0 = .ok ([[1, 2]], 10) ∧
    seqGet sf8 1 = .ok ([[3, 4]], 20) ∧
    sf8.imageCount = 2 := by
  refine ⟨?_, by decide, ?_, ?_, by decide⟩
  · have h : seqGet sf8 (-1) =
        .ok ([[0, 0]], ((0 : Nat) : ℚ) + ((0 : Nat) : ℚ) / 1000) := rfl
    rw [h]; norm_num
  · have h : seqGet sf8 0 =
        .ok ([[1, 2]], ((10 : Nat) : ℚ) + ((0 : Nat) : ℚ) / 1000) := rfl
    rw [h]; norm_num
  · have h : seqGet sf8 1 =
        .ok ([[3, 4]], ((20 : Nat) : ℚ) + ((0 : Nat) : ℚ) / 1000) := rfl
    rw [h]; norm_num

/-- C3: the claim (and the `readTo` docstring) says the forward scan stops
before the first entry with an unmet dependency.  In the source the
dependency check's `break` (norpix.py line 98) exits only the inner loop
over `f.depends` and `segment.append(f)` runs unconditionally, so a field
whose dependency is absent from the decode context is included anyway and
the scan continues past it: with an empty context, a field named `A`
depending on the absent key `X` is included, and so is the field `B`
after it. -/
theorem readTo_unmet_dependency_bug :
    readToSegment none [] [⟨"A", ["X"], 1⟩, ⟨"B", [], 1⟩] =
      [⟨"A", ["X"], 1⟩, ⟨"B", [], 1⟩] ∧
    "X" ∉ ([] : List String) := by
  exact ⟨rfl, by decide⟩

/-- C4: the claim says the built-in normalization view divides by
`F = 2^BitDepthReal − 1`, defaulting to 255 only when no value is given.
The source computes `self.fullscale = 2**self.realbpp - 1` (norpix.py
line 40) but constructs the view as `SeqImageFloat(self)` (line 43)
without passing it, so the view always divides by the default 255
(line 175).  On the file `sf12` with `BitDepthReal = 12` the pixel value
255 normalizes to `255/255 = 1`, not to `255/4095` as the claim requires.
The timestamp does pass through unchanged. -/
theorem imfloat_default_fullscale_bug :
    sf12.imfloatItem 0 = .ok ([[1]], 7 + 5 / 1000) ∧
    sf12.fullscale = 4095 ∧
    ((1 : ℚ) ≠ 255 / 4095) := by
  refine ⟨?_, by decide, by norm_num⟩
  have h : sf12.imfloatItem 0 =
      .ok ([[((255 : Nat) : ℚ) / ((255 : Nat) : ℚ)]],
        ((7 : Nat) : ℚ) + ((5 : Nat) : ℚ) / 1000) := rfl
  rw [h]; norm_num

/-- C6 counterexample: on a decoded header with `HeaderSize = 999` and
`ImageFormat = 0`, construction fails with the `HeaderSize` assertion
fault (norpix.py line 155 runs before the `ImageFormat` check of lines
156-157), not with UnsupportedFormat — so `ImageFormat ≠ 100` does not
*always* fail with UnsupportedFormat as the claim states. -/
theorem construction_headersize_assert_precedes_format :
    mkSeqFile hdrHS999 [] = .error .assertHeaderSize ∧
    ConstructFault.assertHeaderSize ≠ ConstructFault.unsupportedFormat := by
  decide

/-- C6 (amended): construction on a decoded header with `ImageFormat ≠ 100`
always fails, so no `SeqFile` (and hence no frame, index 0 included)
becomes accessible — with the UnsupportedFormat fault when
`HeaderSize = 1024`, but with the `HeaderSize` assertion fault when
`HeaderSize ≠ 1024`, because the assertion on norpix.py line 155 runs
before the format check of lines 156-157; and construction succeeds only
when `HeaderSize = 1024`, regardless of `Version`. -/
theorem construction_format_and_headersize :
    ∀ (hd : SeqHeaderData) (file : List Nat),
      (hd.ImageFormat ≠ 100 →
        (∀ s, mkSeqFile hd file ≠ .ok s) ∧
        (hd.HeaderSize = 1024 → mkSeqFile hd file = .error .unsupportedFormat)) ∧
      (∀ s, mkSeqFile hd file = .ok s → hd.HeaderSize = 1024) := by
  intro hd file
  constructor
  · intro hfmt
    by_cases h1 : hd.HeaderSize = 1024
    · refine ⟨?_, fun _ => ?_⟩
      · intro s
        simp [mkSeqFile, seqHeaderChecks, h1, hfmt]
      · simp [mkSeqFile, seqHeaderChecks, h1, hfmt]
    · refine ⟨?_, fun h1' => absurd h1' h1⟩
      intro s
      simp [mkSeqFile, seqHeaderChecks, h1]
  · intro s hok
    by_cases h1 : hd.HeaderSize = 1024
    · exact h1
    · exfalso
      simp [mkSeqFile, seqHeaderChecks, h1] at hok

/-- C6 witness: on the concrete header `hdrFmt0` (valid `HeaderSize`,
`ImageFormat = 0`) construction fails with UnsupportedFormat. -/
theorem construction_format_witness :
    mkSeqFile hdrFmt0 [] = .error .unsupportedFormat :=
  ((construction_format_and_headersize hdrFmt0 []).1 (by decide)).2 (by decide)

/-- C5: `imageCount` is the floor of `(filesize − HeaderSize) /
TrueImageSize` (norpix.py line 52; Python 2 `/` on integers is floor
division): a file of exactly `HeaderSize + k × TrueImageSize` bytes yields
exactly `k` frames and a file one byte shorter yields `k − 1`. -/
theorem frameCount_floor (hd : SeqHeaderData) (f g : List Nat) (k : Nat)
    (hT : 0 < hd.TrueImageSize) (hH : 0 ≤ hd.HeaderSize) :
    (SeqFile.mk hd f).imageCount =
      Int.fdiv ((f.length : Int) - hd.HeaderSize) (hd.TrueImageSize : Int) ∧
    (f.length = hd.HeaderSize.toNat + k * hd.TrueImageSize →
      (SeqFile.mk hd f).imageCount = k) ∧
    (g.length + 1 = hd.HeaderSize.toNat + k * hd.TrueImageSize →
      (SeqFile.mk hd g).imageCount = (k : Int) - 1) := by
  have hT' : (0 : Int) < (hd.TrueImageSize : Int) := by exact_mod_cast hT
  have hTne : (hd.TrueImageSize : Int) ≠ 0 := by omega
  refine ⟨rfl, ?_, ?_⟩
  · intro hf
    show Int.fdiv ((f.length : Int) - hd.HeaderSize) (hd.TrueImageSize : Int) = k
    have h1 : (f.length : Int) =
        hd.HeaderSize + (k : Int) * (hd.TrueImageSize : Int) := by
      have h2 : ((f.length : Nat) : Int) =
          ((hd.HeaderSize.toNat : Nat) : Int) + (k : Int) * (hd.TrueImageSize : Int) := by
        exact_mod_cast congrArg (Nat.cast : Nat → Int) hf
      rwa [Int.toNat_of_nonneg hH] at h2
    rw [h1, show hd.HeaderSize + (k : Int) * (hd.TrueImageSize : Int) - hd.HeaderSize
      = (k : Int) * (hd.TrueImageSize : Int) from by ring,
      Int.fdiv_eq_ediv _ hT'.le, Int.mul_ediv_cancel _ hTne]
  · intro hg
    show Int.fdiv ((g.length : Int) - hd.HeaderSize) (hd.TrueImageSize : Int) = (k : Int) - 1
    have h1 : (g.length : Int) =
        hd.HeaderSize + (k : Int) * (hd.TrueImageSize : Int) - 1 := by
      have h2 : ((g.length : Nat) : Int) + 1 =
          ((hd.HeaderSize.toNat : Nat) : Int) + (k : Int) * (hd.TrueImageSize : Int) := by
        exact_mod_cast congrArg (Nat.cast : Nat → Int) hg
      rw [Int.toNat_of_nonneg hH] at h2
      linarith
    rw [h1, show hd.HeaderSize + (k : Int) * (hd.TrueImageSize : Int) - 1 - hd.HeaderSize
      = ((hd.TrueImageSize : Int) - 1) + ((k : Int) - 1) * (hd.TrueImageSize : Int) from by ring,
      Int.fdiv_eq_ediv _ hT'.le, Int.add_mul_ediv_right _ _ hTne,
      Int.ediv_eq_zero_of_lt (by omega) (by omega), zero_add]

/-- C5 witness: `file8` (1040 bytes = 1024 + 2×8) yields 2 frames; a
1039-byte file yields 1. -/
theorem frameCount_floor_witness :
    (SeqFile.mk hdr8 file8).imageCount = 2 ∧
    (SeqFile.mk hdr8 (List.replicate 1039 0)).imageCount = (2 : Int) - 1 := by
  constructor
  · have h := (frameCount_floor hdr8 file8 [] 2 (by decide) (by decide)).2.1 (by decide)
    exact_mod_cast h
  · exact (frameCount_floor hdr8 [] (List.replicate 1039 0) 2
      (by decide) (by decide)).2.2 (by decide)

/-- C7: in the dispatch phase of `readTo` (norpix.py lines 110-117), each
field's decode is handed exactly its declared `count()` of raw values (in
schema order); if the raw values run short before a field's count is
satisfied the parse fails with `IndexError` (`notEnoughData`), and if raw
values remain after the last field it fails with `IndexError`
(`unclaimedData`) — both the spec's LayoutMismatch fault.  Success happens
exactly when the counts sum to the number of raw values, and then field
`j` receives a slice of exactly its declared length. -/
theorem dispatch_exact_counts :
    ∀ (fs : List BinField) (raws : List Int),
      (countSum fs = raws.length →
        dispatch fs raws = .ok (sliceBy fs raws) ∧
        (sliceBy fs raws).map List.length = fs.map BinField.count) ∧
      (raws.length < countSum fs → dispatch fs raws = .error .notEnoughData) ∧
      (countSum fs < raws.length → dispatch fs raws = .error .unclaimedData) := by
  intro fs
  induction fs with
  | nil =>
    intro raws
    refine ⟨?_, ?_, ?_⟩
    · intro h
      have hr : raws = [] := List.length_eq_zero.mp (by simpa [countSum] using h.symm)
      subst hr
      exact ⟨rfl, rfl⟩
    · intro h
      simp [countSum] at h
    · intro h
      match raws with
      | [] => simp [countSum] at h
      | x :: t => simp [dispatch]
  | cons f rest ih =>
    intro raws
    have hsum : countSum (f :: rest) = f.count + countSum rest := by simp [countSum]
    by_cases hlt : raws.length < f.count
    · refine ⟨?_, ?_, ?_⟩
      · intro h
        rw [hsum] at h
        omega
      · intro _
        simp [dispatch, hlt]
      · intro h
        rw [hsum] at h
        omega
    · push_neg at hlt
      have hdrop : (raws.drop f.count).length = raws.length - f.count := by simp
      refine ⟨?_, ?_, ?_⟩
      · intro h
        rw [hsum] at h
        have hrest : countSum rest = (raws.drop f.count).length := by omega
        obtain ⟨hd1, hd2⟩ := (ih (raws.drop f.count)).1 hrest
        refine ⟨?_, ?_⟩
        · simp [dispatch, Nat.not_lt.mpr hlt, hd1, sliceBy]
        · simp only [sliceBy, List.map_cons, hd2, List.length_take]
          congr 1
          omega
      · intro h
        rw [hsum] at h
        have hrest := (ih (raws.drop f.count)).2.1 (by omega)
        simp [dispatch, Nat.not_lt.mpr hlt, hrest]
      · intro h
        rw [hsum] at h
        have hrest := (ih (raws.drop f.count)).2.2 (by omega)
        simp [dispatch, Nat.not_lt.mpr hlt, hrest]

/-- C7 witness: two fields declaring counts 1 and 2 dispatched over three
raw values succeed, receiving `[5]` and `[6, 7]`. -/
theorem dispatch_exact_counts_witness :
    dispatch [⟨"a", [], 1⟩, ⟨"b", [], 2⟩] [5, 6, 7] =
      .ok (sliceBy [⟨"a", [], 1⟩, ⟨"b", [], 2⟩] [5, 6, 7]) :=
  ((dispatch_exact_counts [⟨"a", [], 1⟩, ⟨"b", [], 2⟩] [5, 6, 7]).1 (by decide)).1

/-- Helper for C8: `val.find(t)` misses (`-1`) exactly on lists not
containing `t`. -/
theorem pyFind_of_not_mem {t : Nat} : ∀ {a : List Nat}, t ∉ a → pyFind t a = none := by
  intro a
  induction a with
  | nil => intro _; rfl
  | cons x rest ih =>
    intro h
    have hx : ¬x = t := fun hc => h (by simp [hc])
    have hr : t ∉ rest := fun hc => h (List.mem_cons_of_mem _ hc)
    simp [pyFind, hx, ih hr]

/-- Helper for C8: `val.find(t)` returns the index of the first
occurrence of `t`. -/
theorem pyFind_append {t : Nat} : ∀ (a b : List Nat), t ∉ a →
    pyFind t (a ++ t :: b) = some a.length := by
  intro a
  induction a with
  | nil => intro b _; simp [pyFind]
  | cons x rest ih =>
    intro b h
    have hx : ¬x = t := fun hc => h (by simp [hc])
    have hr : t ∉ rest := fun hc => h (List.mem_cons_of_mem _ hc)
    simp [pyFind, hx, ih b hr]

/-- C8: `BinString`'s decode (norpix.py lines 264-267) of a byte field is
the prefix strictly before the first null byte — for a field
`a ++ 0 :: b` with no null in `a` it yields `a` — and the entire field
when no null byte occurs in it. -/
theorem binString_null_truncation (a b : List Nat) (ha : 0 ∉ a) :
    binStringDecode (a ++ 0 :: b) = a ∧ binStringDecode a = a := by
  constructor
  · unfold binStringDecode
    rw [pyFind_append a b ha]
    exact List.take_left a (0 :: b)
  · unfold binStringDecode
    rw [pyFind_of_not_mem ha]

/-- C8 witness: the field `[72, 105, 0, 33]` decodes to `[72, 105]`, and
the null-free `[72, 105]` decodes to itself. -/
theorem binString_null_truncation_witness :
    binStringDecode [72, 105, 0, 33] = [72, 105] ∧
    binStringDecode [72, 105] = [72, 105] := by
  have h := binString_null_truncation [72, 105] [33] (by decide)
  exact h

/-- Helper for C9: the frame read seeks explicitly before reading
(norpix.py line 65), so its result does not depend on the file cursor
left by earlier operations. -/
theorem readFrameAt_fst_cursor (s : SeqFile) (pos : Int) (c c' : Int) :
    (readFrameAt s pos c).1 = (readFrameAt s pos c').1 := by
  by_cases h : pos < 0 <;> simp [readFrameAt, h]

/-- C9: for an unchanged underlying file, the value of `get(i)` is
independent of the file-cursor state, hence of any previous `get(j)`:
`get(i)` performed right after `get(j)` equals `get(i)` performed first,
and repeated calls with the same `i` return identical results (the only
state `__getitem__` touches is the cursor, which it re-seeks). -/
theorem getitem_order_independent (s : SeqFile) (i j c : Int) :
    (seqGetSt s i ((seqGetSt s j c).2)).1 = seqGet s i ∧
    (seqGetSt s i c).1 = seqGet s i := by
  have key : ∀ c', (seqGetSt s i c').1 = seqGet s i := by
    intro c'
    by_cases h : s.imageCount ≤ i
    · simp [seqGetSt, seqGet, h]
    · simp only [seqGetSt, seqGet, if_neg h]
      exact readFrameAt_fst_cursor s _ c' 0
  exact ⟨key _, key _⟩

/-- Helper for C10: Python 2 `int()` is the identity on integral values. -/
theorem ratTrunc_intCast (m : Int) : ratTrunc (m : ℚ) = m := by
  simp [ratTrunc, Rat.num_intCast, Rat.den_intCast]

/-- Helper for C10: `int(q) == q` exactly when `q` is integral. -/
theorem ratTrunc_cast_eq_iff (q : ℚ) : ((ratTrunc q : ℚ) = q) ↔ q.den = 1 := by
  constructor
  · intro h
    rw [← h]
    exact Rat.den_intCast _
  · intro hden
    have hq : ((q.num : ℚ)) = q := Rat.coe_int_num_of_den_eq_one hden
    have ht : ratTrunc q = q.num := by simp [ratTrunc, hden]
    rw [ht, hq]

/-- Helper for C10: the seek/read part never raises the invalid-index
fault. -/
theorem readFrameAt_fst_ne_invalid (s : SeqFile) (pos c : Int) :
    (readFrameAt s pos c).1 ≠ .error .invalidIndex := by
  by_cases h : pos < 0
  · simp [readFrameAt, h]
  · simp only [readFrameAt, if_neg h]
    split_ifs <;> simp

/-- C10: the integrality check `int(i) != i` (norpix.py line 61) raises
the invalid-index fault exactly when converting the frame number to an
integer changes its value; a float whose value equals an integer passes
the check, is used directly in the offset arithmetic of line 65, and the
whole access behaves exactly like the corresponding integer index. -/
theorem getitem_integrality (s : SeqFile) (q : ℚ) :
    (seqGetQ s q = .error .invalidIndex ↔ (ratTrunc q : ℚ) ≠ q) ∧
    ((ratTrunc q : ℚ) = q → seqGetQ s q = seqGet s (ratTrunc q)) := by
  constructor
  · constructor
    · intro h hint
      rw [seqGetQ, if_neg (fun hne => hne hint)] at h
      by_cases h2 : (s.imageCount : ℚ) ≤ q
      · rw [if_pos h2] at h
        exact GetFault.noConfusion (Except.error.inj h)
      · rw [if_neg h2] at h
        exact readFrameAt_fst_ne_invalid s _ 0 h
    · intro hne
      rw [seqGetQ, if_pos hne]
  · intro hint
    obtain ⟨n, rfl⟩ : ∃ n : Int, (n : ℚ) = q := ⟨ratTrunc q, hint⟩
    rw [ratTrunc_intCast]
    have hcond : ¬((ratTrunc ((n : Int) : ℚ) : ℚ) ≠ ((n : Int) : ℚ)) := by
      rw [ratTrunc_intCast]
      exact fun h => h rfl
    rw [seqGetQ, if_neg hcond]
    have hle : ((s.imageCount : ℚ) ≤ ((n : Int) : ℚ)) ↔ (s.imageCount ≤ n) := Int.cast_le
    by_cases h2 : s.imageCount ≤ n
    · rw [if_pos (hle.mpr h2), seqGet, seqGetSt, if_pos h2]
    · rw [if_neg (fun hc => h2 (hle.mp hc)), seqGet, seqGetSt, if_neg h2]
      have harg : ratTrunc ((s.imageOffset : ℚ) + (s.imageBlockSize : ℚ) * ((n : Int) : ℚ))
          = s.imageOffset + s.imageBlockSize * n := by
        rw [← Int.cast_mul, ← Int.cast_add, ratTrunc_intCast]
      rw [harg]

/-- C10 witness: the float `1.0` indexes `sf8` exactly like the integer
`int(1.0)`. -/
theorem getitem_integrality_witness :
    seqGetQ sf8 ((1 : Int) : ℚ) = seqGet sf8 (ratTrunc ((1 : Int) : ℚ)) :=
  (getitem_integrality sf8 ((1 : Int) : ℚ)).2 (by rw [ratTrunc_intCast])
